import Mathlib

/-!
Verification development for the Priv-Page-Refresh repository.

The repository monitors housing-listing web pages and notifies on changes.
Its two programs are `monitor.py` (plain-fetch text diffing) and
`monitor_dynamic.py` (rendered-fetch identifier-set diffing).  This file
embeds the pure core of both programs and proves or refutes the claims of
the specification against the embedding.

Modelling conventions:
* Python `str` is Lean `String` (a list of unicode characters).  Character
  classes (`\s`, `[A-Z]`, `str.lower()`, ...) are modelled on their ASCII
  behaviour, which covers all inputs appearing in this development.
* Python `dict` is an association list `List (String × α)` with
  `dictGetD` / `dictSet` / `removeKey` mirroring `d.get(k, default)`,
  `d[k] = v` and `del d[k]`.
* Python `set[str]` is a duplicate-free `List String` (`pySetOf` is
  `set(...)`); every use below is order-insensitive or sorts first, so the
  arbitrary iteration order of a Python set is immaterial.  `sorted(s)` is
  insertion sort by the code-point order `strLe`, Python's string order.
* Wall-clock time (`time.time()`, a float) is modelled as `ℤ` (seconds);
  the code uses only ordering and addition of times, and its one cooldown
  constant (300 seconds) is integral.
* External collaborators (the headless browser / HTTP fetch, BeautifulSoup
  text extraction, `difflib.SequenceMatcher`, SHA-256, the ntfy endpoint)
  are oracles passed in as function parameters; everything the repository
  itself computes is embedded concretely, except the per-site regular
  expression extractors of `monitor_dynamic.py` that no claim depends on,
  which are collected in the parameter record `RegexExtractors`.
-/

/-- An opaque listing identifier (`monitor_dynamic.py` "apartment id"). -/
abbrev Identifier := String

/-! ### Basic character classes and Python string helpers -/

/-- Python regex `\s` on ASCII: space, tab, newline, carriage return,
form feed, vertical tab.  (`re` also matches some unicode spaces; all texts
in this development are ASCII.) -/
def isPyWs (c : Char) : Bool :=
  c == ' ' || c == '\t' || c == '\n' || c == '\x0d' || c == '\x0c' || c == '\x0b'

/-- Python regex `\w` / word character for `\b` boundaries (ASCII). -/
def isWordChar (c : Char) : Bool := c.isAlphanum || c == '_'

/-- `text.strip()` on a character list: drop leading and trailing
whitespace. -/
def pyStrip (l : List Char) : List Char :=
  ((l.dropWhile isPyWs).reverse.dropWhile isPyWs).reverse

/-- `text.strip()` on strings. -/
def pyStripStr (s : String) : String := String.mk (pyStrip s.toList)

/-- `re.sub(r"\s+", " ", text)`: replace every maximal whitespace run by a
single space.  `prevWs` records whether the previous character belonged to
a whitespace run already replaced. -/
def collapseAux : Bool → List Char → List Char
  | _, [] => []
  | prevWs, c :: rest =>
    if isPyWs c then
      if prevWs then collapseAux true rest
      else ' ' :: collapseAux true rest
    else c :: collapseAux false rest

/-- `re.sub(r"\s+", " ", text)` on strings. -/
def collapseWsStr (s : String) : String := String.mk (collapseAux false s.toList)

/-- `normalize_whitespace` (monitor.py lines 98-100, monitor_dynamic.py
lines 102-103): `re.sub(r"\s+", " ", text).strip()`. -/
def normalize_whitespace (s : String) : String :=
  String.mk (pyStrip (collapseAux false s.toList))

/-- Python `needle in haystack` substring test. -/
def strContains (haystack needle : String) : Bool :=
  decide (List.IsInfix needle.toList haystack.toList)

/-- Python `s.lower()` (ASCII). -/
def lowerStr (s : String) : String := String.mk (s.toList.map Char.toLower)

/-- Python `s.replace(" ", "")`. -/
def removeSpaces (s : String) : String := String.mk (s.toList.filter (fun c => c != ' '))

/-- Python `"\n".join(lines)`. -/
def joinNL : List String → String
  | [] => ""
  | a :: rest => rest.foldl (fun acc l => acc ++ "\n" ++ l) a

/-- Split a character list at a separator character. -/
def splitOnCharAux (sep : Char) : List Char → List Char → List (List Char)
  | [], acc => [acc.reverse]
  | c :: rest, acc =>
    if c == sep then acc.reverse :: splitOnCharAux sep rest []
    else splitOnCharAux sep rest (c :: acc)

/-- Python `text.splitlines()` for texts whose line separator is `"\n"`
(the only separator produced by the pipeline, which joins on `"\n"`; the
difference to `str.split` on a trailing newline is an empty line, and every
caller discards empty lines immediately). -/
def splitLinesNL (s : String) : List String :=
  (splitOnCharAux '\n' s.toList []).map String.mk

/-- Python `s.replace(pat, sub)` for a non-empty `pat`: replace
non-overlapping occurrences left to right.  The fuel is the text length
(each step consumes at least one character). -/
def replaceAll (pat sub : List Char) : Nat → List Char → List Char
  | 0, l => l
  | _, [] => []
  | fuel + 1, l@(c :: rest) =>
    if pat.isPrefixOf l then sub ++ replaceAll pat sub fuel (l.drop pat.length)
    else c :: replaceAll pat sub fuel rest

/-- Python `s.replace(pat, sub)` on strings. -/
def pyReplace (s pat sub : String) : String :=
  String.mk (replaceAll pat.toList sub.toList s.toList.length s.toList)

/-! ### Python string order, sets, and dicts -/

/-- Lexicographic code-point comparison of character lists (how Python
compares strings). -/
def lexLe : List Char → List Char → Bool
  | [], _ => true
  | _ :: _, [] => false
  | a :: as, b :: bs =>
    if a.toNat = b.toNat then lexLe as bs else decide (a.toNat < b.toNat)

/-- Python's string order `a <= b`, used by `sorted`. -/
def strLe (a b : String) : Prop := lexLe a.toList b.toList = true

instance decStrLe : DecidableRel strLe := fun a b =>
  inferInstanceAs (Decidable (lexLe a.toList b.toList = true))

/-- Python `set(l)`: the distinct elements of `l` as a duplicate-free
list. -/
def pySetOf (l : List String) : List String := l.dedup

/-- Python set equality of two duplicate-free lists. -/
def setEqB (a b : List String) : Bool :=
  a.all (fun x => b.contains x) && b.all (fun x => a.contains x)

/-- Python `sorted(s)` for a set of strings. -/
def sortIds (l : List Identifier) : List Identifier := l.insertionSort strLe

/-- `d.get(k, default)`. -/
def dictGetD {α : Type} (m : List (String × α)) (k : String) (d : α) : α :=
  (List.lookup k m).getD d

/-- `d[k] = v`: replace the binding in place if present, else append. -/
def dictSet {α : Type} : List (String × α) → String → α → List (String × α)
  | [], k, v => [(k, v)]
  | (k', v') :: rest, k, v =>
    if k' == k then (k, v) :: rest else (k', v') :: dictSet rest k v

/-- `del d[k]` (keys are unique in a Python dict). -/
def removeKey {α : Type} : List (String × α) → String → List (String × α)
  | [], _ => []
  | (k', v') :: rest, k => if k' == k then rest else (k', v') :: removeKey rest k

/-! ### monitor.py: relevance filter (`extract_relevant_content`) -/

/-- Loop state of `extract_relevant_content` (monitor.py lines 219-248):
the retained lines and the trailing context window of at most two
non-matching lines. -/
structure ExtractState where
  relevant : List String
  window : List String
deriving Repr, DecidableEq

/-- One iteration of the `for line in lines` loop of
`extract_relevant_content`.  The ignore and listing regex batteries enter
only through the Boolean predicates `isIgnored` (any `IGNORE_REGEXES`
match) and `isListing` (any `LISTING_REGEXES` match); the control flow is
embedded literally. -/
def extractStep (isIgnored isListing : String → Bool) (st : ExtractState)
    (rawLine : String) : ExtractState :=
  let line := pyStripStr rawLine
  if line = "" ∨ line.length < 3 then st
  else if isIgnored line then st
  else if isListing line then
    { relevant := st.relevant ++ st.window ++ [line], window := [] }
  else
    let w := st.window ++ [line]
    { relevant := st.relevant, window := if 2 < w.length then w.tail else w }

/-- The list of retained lines computed by `extract_relevant_content`
before joining. -/
def extractRelevantLines (isIgnored isListing : String → Bool)
    (lines : List String) : List String :=
  (lines.foldl (extractStep isIgnored isListing) ⟨[], []⟩).relevant

/-- `extract_relevant_content` (monitor.py lines 219-248): join the
retained lines; fall back to the unfiltered text when the result is
shorter than 100 characters. -/
def extract_relevant_content (isIgnored isListing : String → Bool)
    (text : String) : String :=
  let result := joinNL (extractRelevantLines isIgnored isListing (splitLinesNL text))
  if result.length < 100 then text else result

/-! ### monitor_dynamic.py: identifier validity (`is_valid_apartment_id`) -/

/-- The UI-noise substrings rejected by `is_valid_apartment_id`
(monitor_dynamic.py lines 737-741). -/
def uiTexts : List String :=
  ["per month", "view property", "click here", "more info",
   "apply now", "learn more", "read more", "view advertisement",
   "summary", "details", "download", "contact"]

/-- Start of `re.match(r"^(?:The\s+)?[A-Z][a-z]+", apt_id)`: an upper-case
letter followed by a lower-case letter. -/
def startsUpperLower : List Char → Bool
  | c1 :: c2 :: _ => c1.isUpper && c2.isLower
  | _ => false

/-- `re.match(r"^(?:The\s+)?[A-Z][a-z]+", apt_id)` as a Boolean: either the
string starts `[A-Z][a-z]`, or it starts with `The`, whitespace, then
`[A-Z][a-z]` (the optional `The\s+` group backtracks to empty when the
remainder fails). -/
def matchBuildingName (l : List Char) : Bool :=
  startsUpperLower l ||
    (match l with
     | 'T' :: 'h' :: 'e' :: c :: rest =>
       isPyWs c && startsUpperLower (rest.dropWhile isPyWs)
     | _ => false)

/-- `is_valid_apartment_id` (monitor_dynamic.py lines 725-754). -/
def is_valid_apartment_id (aptId : String) : Bool :=
  let l := aptId.toList
  if aptId = "" || l.length < 5 || 150 < l.length then false
  else if l.contains '\n' || l.contains '\x0d' then false
  else if uiTexts.any (fun ui => strContains (lowerStr aptId) ui) then false
  else l.any Char.isDigit || matchBuildingName l

/-! ### monitor_dynamic.py: generic fallback extractor

The two regexes of `extract_ids_generic` (lines 697-722) are hand-compiled
into explicit scanners with `re.finditer` semantics: scan left to right,
emit non-overlapping matches, continue after each match.
-/

/-- Case-insensitive literal match: does `l` start with `pat` (given in
lower case)? -/
def matchCI : List Char → List Char → Bool
  | [], _ => true
  | _ :: _, [] => false
  | p :: ps, c :: cs => (c.toLower == p) && matchCI ps cs

/-- Try `Unit\s+([A-Z0-9]{1,5})\b` (IGNORECASE) anchored at the head of
`l`.  Returns the captured group (upper-cased, as `group(1).upper()`) and
the total number of characters consumed.  The greedy `{1,5}` with a
trailing `\b` succeeds exactly when the maximal alphanumeric run after the
whitespace has length 1..5 and is followed by a non-word character or the
end of the text. -/
def tryUnitAt (l : List Char) : Option (String × Nat) :=
  if matchCI ['u', 'n', 'i', 't'] l then
    let after := l.drop 4
    let ws := after.takeWhile isPyWs
    if ws.isEmpty then none
    else
      let body := after.drop ws.length
      let grp := body.takeWhile (fun c => c.isAlphanum)
      if grp.length = 0 || 5 < grp.length then none
      else
        match body.drop grp.length with
        | [] => some (String.mk (grp.map Char.toUpper), 4 + ws.length + grp.length)
        | c :: _ =>
          if isWordChar c then none
          else some (String.mk (grp.map Char.toUpper), 4 + ws.length + grp.length)
  else none

/-- `re.finditer` driver for `tryUnitAt`; the fuel is the text length
(every step consumes at least one character). -/
def unitScanAux : Nat → List Char → List String
  | 0, _ => []
  | _, [] => []
  | fuel + 1, l@(_ :: rest) =>
    match tryUnitAt l with
    | some (g, n) => g :: unitScanAux fuel (l.drop n)
    | none => unitScanAux fuel rest

/-- All captures of `Unit\s+([A-Z0-9]{1,5})\b` in `l`, upper-cased. -/
def unitScan (l : List Char) : List String := unitScanAux l.length l

/-- Street keywords of the generic address regex. -/
def addrKeywords : List String := ["Street", "Avenue", "Road", "Place", "Boulevard"]

/-- Python `[A-Za-z ]`. -/
def isAlphaSpace (c : Char) : Bool := c.isAlpha || c == ' '

/-- Try each address keyword (in regex alternation order) case-insensitively
at offset `m` of `body`; return the keyword length on success. -/
def kwAt (body : List Char) (m : Nat) : Option Nat :=
  addrKeywords.findSome? (fun kw =>
    if matchCI (kw.toList.map Char.toLower) (body.drop m) then some kw.toList.length
    else none)

/-- Greedy backtracking of `[A-Za-z ]+` before the keyword alternation:
try the largest prefix length first (regex `+` is greedy), down to 1. -/
def findAddrKw (body : List Char) : Nat → Option (Nat × Nat)
  | 0 => none
  | m + 1 =>
    match kwAt body (m + 1) with
    | some klen => some (m + 1, klen)
    | none => findAddrKw body m

/-- Try `(\d+\s+[A-Za-z ]+(?:Street|Avenue|Road|Place|Boulevard))`
(IGNORECASE) anchored at the head of `l`, with maximal-munch `\d+` and
`\s+` (sufficient for all texts considered here, whose whitespace is never
part of a viable `[A-Za-z ]+` backtrack).  Returns the matched group and
the number of characters consumed. -/
def tryAddrAt (l : List Char) : Option (List Char × Nat) :=
  let ds := l.takeWhile Char.isDigit
  if ds.isEmpty then none
  else
    let a1 := l.drop ds.length
    let ws := a1.takeWhile isPyWs
    if ws.isEmpty then none
    else
      let body := a1.drop ws.length
      let len := (body.takeWhile isAlphaSpace).length
      match findAddrKw body len with
      | none => none
      | some (m, klen) =>
        some (ds ++ ws ++ body.take (m + klen), ds.length + ws.length + m + klen)

/-- `re.finditer` driver for `tryAddrAt`. -/
def addrScanAux : Nat → List Char → List (List Char)
  | 0, _ => []
  | _, [] => []
  | fuel + 1, l@(_ :: rest) =>
    match tryAddrAt l with
    | some (g, n) => g :: addrScanAux fuel (l.drop n)
    | none => addrScanAux fuel rest

/-- All matches of the generic address regex in `l`. -/
def addrScan (l : List Char) : List (List Char) := addrScanAux l.length l

/-- `extract_ids_generic` (monitor_dynamic.py lines 697-722): unit-number
matches plus length-bounded address matches, discarded wholesale when more
than 50 candidates accumulate. -/
def extract_ids_generic (text : String) : List String :=
  let l := text.toList
  let unitIds := (unitScan l).map (fun g => "Unit " ++ g)
  let addrIds := ((addrScan l).map (fun a => pyStripStr (String.mk a))).filter
    (fun a => 10 ≤ a.length && a.length ≤ 50)
  let apartments := pySetOf (unitIds ++ addrIds)
  if 50 < apartments.length then [] else apartments

/-! ### monitor_dynamic.py: per-site extractors and the routing function -/

/-- `extract_ids_wavecrest` (monitor_dynamic.py lines 664-678): a pure
substring-status extractor. -/
def extract_ids_wavecrest (text : String) : List String :=
  if strContains (lowerStr text) "currently not accepting" then []
  else if strContains (lowerStr text) "accepting applications" ||
      strContains (lowerStr text) "available" then
    ["Wavecrest Units Available"]
  else []

/-- `extract_ids_riseboro` (monitor_dynamic.py lines 681-694). -/
def extract_ids_riseboro (text : String) : List String :=
  pySetOf
    ((if strContains (lowerStr text) "accepting applications" then
        ["Woodlawn Senior Living - Accepting Applications"] else []) ++
     (if strContains (lowerStr text) "section 8" ||
         strContains (lowerStr text) "section-8" then
        ["Section 8 Units"] else []))

/-- Known buildings of `extract_ids_spring` (monitor_dynamic.py line 607). -/
def springKnown : List String :=
  ["1488 New York Avenue", "321 E 60th Street", "RADROC", "THE BEDFORD"]

/-- `extract_ids_spring` (monitor_dynamic.py lines 598-613). -/
def extract_ids_spring (text : String) : List String :=
  pySetOf (springKnown.filter (fun b =>
    strContains (removeSpaces (lowerStr text)) (removeSpaces (lowerStr b))))

/-- The remaining per-site extractors of monitor_dynamic.py (lines
210-661), which are heavy regex heuristics none of the claims depend on.
They are parameters of the embedding: each field is the corresponding
`extract_ids_*` function, returning the extracted identifier set. -/
structure RegexExtractors where
  iafford : String → List String
  reside : String → List String
  mgny : String → List String
  fifthave : String → List String
  cgm : String → List String
  clinton : String → List String
  nychdc : String → List String
  pronto : String → List String
  ahg : String → List String
  sjp : String → List String
  langsam : String → List String
  reclaim : String → List String
  tfc : String → List String

/-- The always-empty extractor. -/
def emptyExtractor : String → List String := fun _ => []

/-- A vacuous instantiation used to evaluate runs whose control flow never
reaches a regex-based per-site extractor. -/
def noRegexExtractors : RegexExtractors where
  iafford := emptyExtractor
  reside := emptyExtractor
  mgny := emptyExtractor
  fifthave := emptyExtractor
  cgm := emptyExtractor
  clinton := emptyExtractor
  nychdc := emptyExtractor
  pronto := emptyExtractor
  ahg := emptyExtractor
  sjp := emptyExtractor
  langsam := emptyExtractor
  reclaim := emptyExtractor
  tfc := emptyExtractor

/-- The encoding normalization at the head of `extract_apartment_ids`
(monitor_dynamic.py lines 167-169): replace `Â` and non-breaking spaces by
plain spaces, then collapse whitespace runs. -/
def preprocessText (text0 : String) : String :=
  collapseWsStr (pyReplace (pyReplace text0 "Â" " ") " " " ")

/-- `extract_apartment_ids` (monitor_dynamic.py lines 164-207): route to a
per-site extractor by URL substring; unmatched URLs fall through to the
generic extractor.  Note that a registered extractor's result is returned
as-is: there is no fallback on an empty result. -/
def extract_apartment_ids (ex : RegexExtractors) (text0 : String) (url : String) :
    List String :=
  let text := preprocessText text0
  if strContains url "iaffordny.com" || strContains url "afny.org" then ex.iafford text
  else if strContains url "residenewyork.com" then ex.reside text
  else if strContains url "mgnyconsulting.com" then ex.mgny text
  else if strContains url "fifthave.org" then ex.fifthave text
  else if strContains url "cgmrcompliance.com" then ex.cgm text
  else if strContains url "clintonmanagement.com" then ex.clinton text
  else if strContains url "nyc.gov" then []
  else if strContains url "nychdc.com" then ex.nychdc text
  else if strContains url "prontohousingrentals.com" then ex.pronto text
  else if strContains url "ahgleasing.com" then ex.ahg text
  else if strContains url "sjpny.com" then ex.sjp text
  else if strContains url "langsampropertyservices.com" then ex.langsam text
  else if strContains url "springmanagement.net" then extract_ids_spring text
  else if strContains url "sbmgmt.sitemanager.rentmanager.com" then ex.reclaim text
  else if strContains url "tfc.com" then ex.tfc text
  else if strContains url "wavecrestrentals.com" then extract_ids_wavecrest text
  else if strContains url "riseboro.org" then extract_ids_riseboro text
  else extract_ids_generic text

/-- `DYNAMIC_URLS` (monitor_dynamic.py lines 810-842). -/
def DYNAMIC_URLS : List String :=
  ["https://afny.org/re-rentals",
   "https://iaffordny.com/re-rentals",
   "https://fifthave.org/re-rental-availabilities/",
   "https://mgnyconsulting.com/listings/",
   "https://www.prontohousingrentals.com/",
   "https://ahgleasing.com/",
   "https://www.sjpny.com/affordable-rerentals",
   "https://www.langsampropertyservices.com/affordable-rental-opportunities",
   "https://springmanagement.net/apartments-for-rent/",
   "https://sbmgmt.sitemanager.rentmanager.com/RECLAIMHDFC.aspx",
   "https://tfc.com/about/affordable-re-rentals",
   "https://wavecrestrentals.com/section.php?id=1",
   "https://riseboro.org/housing/woodlawn-senior-living/",
   "https://www.nychdc.com/find-re-rentals",
   "https://residenewyork.com/property-status/open-market/",
   "https://www.clintonmanagement.com/availabilities/affordable/",
   "https://cgmrcompliance.com/housing-opportunities-1",
   "https://east-village-homes-owner-llc.rentcafewebsite.com/"]

/-! ### monitor_dynamic.py: diffing, alert formatting, per-source outcome -/

/-- The identifier-set diff of `run_dynamic_once` (monitor_dynamic.py
lines 887-888; the same computation appears in
`summarize_tfc_income_changes`, monitor.py lines 403-404):
`added = new - old`, `removed = old - new`, on sets represented as
duplicate-free lists. -/
def run_diff (oldApartments newApartments : List Identifier) :
    List Identifier × List Identifier :=
  (newApartments.filter (fun a => !(oldApartments.contains a)),
   oldApartments.filter (fun a => !(newApartments.contains a)))

/-- An alert request handed to `send_ntfy_alert`: ntfy priority string and
message body. -/
structure Alert where
  priority : String
  summary : String
deriving Repr, DecidableEq

/-- The message lines built by `format_apartment_changes`
(monitor_dynamic.py lines 757-771). -/
def format_lines (added removed : List Identifier) : List String :=
  (if added ≠ [] then
    ["New apartments detected:"] ++ ((sortIds added).take 20).map (fun apt => "+ " ++ apt) ++
      (if 20 < added.length then ["... and " ++ Nat.repr (added.length - 20) ++ " more"] else [])
   else []) ++
  (if 3 < removed.length then
    ["", "(" ++ Nat.repr removed.length ++ " apartments removed)"] else [])

/-- `format_apartment_changes` (monitor_dynamic.py lines 757-771). -/
def format_apartment_changes (added removed : List Identifier) : String :=
  joinNL (format_lines added removed)

/-- Outcome of the per-source decision block of `run_dynamic_once`
(monitor_dynamic.py lines 877-910), given a successfully fetched source. -/
inductive SourceResult where
  | init (baseline : List Identifier)
  | nochange
  | skipMassive (addedCard removedCard : Nat)
  | changed (newBaseline : List Identifier) (alert : Option Alert)
deriving Repr, DecidableEq

/-- The per-source decision block of `run_dynamic_once` (monitor_dynamic.py
lines 877-910): INIT on an empty stored baseline; no-op on an empty diff;
skip on a massive diff; otherwise update the baseline and request an alert
exactly when the run would call `send_ntfy_alert`.  `newApartments` is the
validated extraction result (a set); `oldList` is the stored baseline
list. -/
def processSource (oldList : List Identifier) (newApartments : List Identifier) :
    SourceResult :=
  let oldApartments := pySetOf oldList
  if oldApartments = [] then SourceResult.init (sortIds newApartments)
  else
    let added := newApartments.filter (fun a => !(oldApartments.contains a))
    let removed := oldApartments.filter (fun a => !(newApartments.contains a))
    if added = [] ∧ removed = [] then SourceResult.nochange
    else if 25 < added.length ∨ 25 < removed.length then
      SourceResult.skipMassive added.length removed.length
    else
      let summary := format_apartment_changes added removed
      if added ≠ [] ∧ summary ≠ "" then
        SourceResult.changed (sortIds newApartments) (some ⟨"4", summary⟩)
      else if 3 < removed.length ∧ summary ≠ "" then
        SourceResult.changed (sortIds newApartments) (some ⟨"2", summary⟩)
      else
        SourceResult.changed (sortIds newApartments) none

/-- The alerts `run_dynamic_once` sends for one source outcome. -/
def alertsOfResult : SourceResult → List Alert
  | SourceResult.changed _ (some a) => [a]
  | _ => []

/-! ### monitor_dynamic.py: failure tracking, cooldowns, and the run -/

/-- `track_failure` (monitor_dynamic.py lines 58-61):
`failures[url] = failures.get(url, 0) + 1`, persisted immediately. -/
def track_failure (failures : List (String × Nat)) (url : String) :
    List (String × Nat) :=
  dictSet failures url (dictGetD failures url 0 + 1)

/-- `reset_failure_count` (monitor_dynamic.py lines 64-68): delete the
entry if present (no notification of any kind). -/
def reset_failure_count (failures : List (String × Nat)) (url : String) :
    List (String × Nat) :=
  removeKey failures url

/-- `set_cooldown` (monitor_dynamic.py lines 78-81):
`cooldowns[url] = time.time() + seconds`. -/
def set_cooldown (cooldowns : List (String × ℤ)) (url : String) (now seconds : ℤ) :
    List (String × ℤ) :=
  dictSet cooldowns url (now + seconds)

/-- `cooldown_seconds` (monitor_dynamic.py lines 71-75):
`max(0.0, until - now)`. -/
def cooldown_seconds (cooldowns : List (String × ℤ)) (url : String) (now : ℤ) : ℤ :=
  max 0 (dictGetD cooldowns url 0 - now)

/-- `fetch_rendered_html` (monitor_dynamic.py lines 106-140) with the
browser abstracted as `render` (the text BeautifulSoup would extract from
the rendered page, or `none` when every retry attempt fails).  The embedded
code is the cooldown gate at the head and the 300-second cooldown set when
all attempts fail. -/
def fetch_rendered_html (cooldowns : List (String × ℤ)) (now : ℤ)
    (render : String → Option String) (url : String) :
    Option String × List (String × ℤ) :=
  if now < dictGetD cooldowns url 0 then (none, cooldowns)
  else
    match render url with
    | some raw => (some raw, cooldowns)
    | none => (none, set_cooldown cooldowns url now 300)

/-- The line cleanup of `fetch_rendered_text` (monitor_dynamic.py lines
152-154): strip each line, drop empty lines, re-join, then
`normalize_whitespace`. -/
def fetch_clean (raw : String) : String :=
  normalize_whitespace (joinNL (((splitLinesNL raw).map pyStripStr).filter (fun l => l ≠ "")))

/-- `fetch_rendered_text` (monitor_dynamic.py lines 143-157). -/
def fetch_rendered_text (cooldowns : List (String × ℤ)) (now : ℤ)
    (render : String → Option String) (url : String) :
    Option String × List (String × ℤ) :=
  match fetch_rendered_html cooldowns now render url with
  | (none, cds) => (none, cds)
  | (some raw, cds) => (some (fetch_clean raw), cds)

/-- In-memory state of the `for url in DYNAMIC_URLS` loop of
`run_dynamic_once` (monitor_dynamic.py lines 845-910), together with the
immediately-persisted failure and cooldown files, the alert requests
issued so far, and the `[INFO] Checking` trace. -/
structure DynLoopState where
  aptState : List (String × List Identifier)
  textState : List (String × String)
  failures : List (String × Nat)
  cooldowns : List (String × ℤ)
  alerts : List (String × Alert)
  changedAny : Bool
  checked : List String
deriving Repr, DecidableEq

/-- One iteration of the source loop of `run_dynamic_once`
(monitor_dynamic.py lines 860-910). -/
def stepUrl (ex : RegexExtractors) (render : String → Option String) (now : ℤ)
    (st0 : DynLoopState) (url : String) : DynLoopState :=
  let st := { st0 with checked := st0.checked ++ [url] }
  match fetch_rendered_text st.cooldowns now render url with
  | (none, cds) =>
    { st with cooldowns := cds, failures := track_failure st.failures url }
  | (some text, cds) =>
    let st := { st with cooldowns := cds, failures := reset_failure_count st.failures url }
    let newApartments := pySetOf ((extract_apartment_ids ex text url).filter
      (fun a => is_valid_apartment_id a))
    let oldList := dictGetD st.aptState url []
    match processSource oldList newApartments with
    | SourceResult.init bl =>
      { st with aptState := dictSet st.aptState url bl,
                textState := dictSet st.textState url text, changedAny := true }
    | SourceResult.nochange => st
    | SourceResult.skipMassive _ _ => st
    | SourceResult.changed bl alert =>
      { st with aptState := dictSet st.aptState url bl,
                textState := dictSet st.textState url text,
                changedAny := true,
                alerts := st.alerts ++ (match alert with
                  | some a => [(url, a)]
                  | none => []) }

/-- The state-cleanup loop at the head of `run_dynamic_once`
(monitor_dynamic.py lines 850-854): deduplicate, validate, sort every
stored identifier list. -/
def cleanAptState (raw : List (String × List Identifier)) :
    List (String × List Identifier) :=
  raw.map (fun p =>
    (p.1, sortIds ((pySetOf p.2).filter (fun a => is_valid_apartment_id a))))

/-- Result of one `run_dynamic_once` run: the four state files as left on
disk, the alert requests, the save decision and the processing trace. -/
structure DynRunResult where
  aptFile : List (String × List Identifier)
  textFile : List (String × String)
  failureFile : List (String × Nat)
  cooldownFile : List (String × ℤ)
  alerts : List (String × Alert)
  changedAny : Bool
  checked : List String
deriving Repr, DecidableEq

/-- `run_dynamic_once` (monitor_dynamic.py lines 845-917) over an explicit
source list: load and clean the apartment state, process every source in
order, and save the apartment/text files only when some source changed
(failure and cooldown files are persisted immediately by their helpers). -/
def runDynamicOnceOn (urls : List String) (ex : RegexExtractors)
    (render : String → Option String) (now : ℤ)
    (aptDisk : List (String × List Identifier)) (textDisk : List (String × String))
    (failDisk : List (String × Nat)) (coolDisk : List (String × ℤ)) : DynRunResult :=
  let st0 : DynLoopState :=
    ⟨cleanAptState aptDisk, textDisk, failDisk, coolDisk, [], false, []⟩
  let fin := urls.foldl (stepUrl ex render now) st0
  { aptFile := if fin.changedAny then fin.aptState else aptDisk
    textFile := if fin.changedAny then fin.textState else textDisk
    failureFile := fin.failures
    cooldownFile := fin.cooldowns
    alerts := fin.alerts
    changedAny := fin.changedAny
    checked := fin.checked }

/-- `run_dynamic_once` on the configured `DYNAMIC_URLS`. -/
def run_dynamic_once (ex : RegexExtractors) (render : String → Option String) (now : ℤ)
    (aptDisk : List (String × List Identifier)) (textDisk : List (String × String))
    (failDisk : List (String × Nat)) (coolDisk : List (String × ℤ)) : DynRunResult :=
  runDynamicOnceOn DYNAMIC_URLS ex render now aptDisk textDisk failDisk coolDisk

/-! ### monitor.py: TF Cornerstone income extraction and diff summary -/

/-- The income-requirement keywords of `extract_tfc_income_options`
(monitor.py lines 380-387). -/
def tfcKeys : List String :=
  ["Income Requirements", "Household Income", "Minimum Income",
   "Maximum Income", "% AMI", "AMI "]

/-- Hand-compilation of `re.search(r"\$\d{2,3},\d{3}", line)` anchored at
the head of `l`. -/
def dollarAt (l : List Char) : Bool :=
  match l with
  | '$' :: rest =>
    -- greedy `{2,3}` followed by a comma: a shorter take leaves a digit
    -- next, so the regex succeeds exactly when the maximal digit run has
    -- length 2 or 3 and a comma plus three digits follow it
    let ds := rest.takeWhile Char.isDigit
    (decide (ds.length = 2) || decide (ds.length = 3)) &&
      (match rest.drop ds.length with
       | ',' :: tl => decide (3 ≤ (tl.takeWhile Char.isDigit).length)
       | _ => false)
  | _ => false

/-- Scan a line for the dollar-income pattern at any position. -/
def hasDollarIncome (line : String) : Bool :=
  (List.range line.toList.length).any (fun i => dollarAt (line.toList.drop i))

/-- `extract_tfc_income_options` (monitor.py lines 369-397): keep stripped
non-empty lines containing an income keyword or a dollar income, then
`sorted(set(...))`. -/
def extract_tfc_income_options (text : String) : List String :=
  let lines := ((splitLinesNL text).map pyStripStr).filter (fun l => l ≠ "")
  let options := lines.filter (fun line =>
    tfcKeys.any (fun k => strContains line k) || hasDollarIncome line)
  sortIds (pySetOf options)

/-- `summarize_tfc_income_changes` (monitor.py lines 400-422):
`added = new - old`, `removed = old - new`; `None` on an empty diff. -/
def summarize_tfc_income_changes (oldSet newSet : List String) : Option String :=
  let added := newSet.filter (fun a => !(oldSet.contains a))
  let removed := oldSet.filter (fun a => !(newSet.contains a))
  if added = [] ∧ removed = [] then none
  else
    some (joinNL (
      (if added ≠ [] then
        "New TF Cornerstone income options detected:" ::
          (sortIds added).map (fun o => "  • " ++ o)
       else []) ++
      (if removed ≠ [] then
        "" :: "Removed TF Cornerstone income options:" ::
          (sortIds removed).map (fun o => "  • " ++ o)
       else [])))

/-! ### monitor.py: run_once and the raising notifier -/

/-- `URLS` (monitor.py lines 18-44). -/
def URLS : List String :=
  ["https://www.nyc.gov/site/hpd/services-and-information/find-affordable-housing-re-rentals.page",
   "https://cgmrcompliance.com/housing-opportunities-1",
   "https://www.clintonmanagement.com/availabilities/affordable/",
   "https://fifthave.org/re-rental-availabilities/",
   "https://ihrerentals.com/",
   "https://kgupright.com/",
   "https://www.langsampropertyservices.com/affordable-rental-opportunities",
   "https://mgnyconsulting.com/listings/",
   "https://www.mickigarciarealty.com/",
   "https://www.prontohousingrentals.com/",
   "https://sbmgmt.sitemanager.rentmanager.com/RECLAIMHDFC.aspx",
   "https://ahgleasing.com/",
   "https://residenewyork.com/property-status/open-market/",
   "https://riseboro.org/housing/woodlawn-senior-living/",
   "https://streeteasy.com/building/riverton-square",
   "https://www.sjpny.com/affordable-rerentals",
   "https://soisrealestateconsulting.com/current-projects-1",
   "https://springmanagement.net/apartments-for-rent/",
   "https://sites.google.com/affordablelivingnyc.com/hpd/home",
   "https://www.taxaceny.com/projects-8",
   "https://tfc.com/about/affordable-re-rentals",
   "https://www.thebridgeny.org/news-and-media",
   "https://wavecrestrentals.com/section.php?id=1",
   "https://yourneighborhoodhousing.com/",
   "https://www.elhrerentals.com/"]

/-- `TFC_URL` (monitor.py line 52). -/
def TFC_URL : String := "https://tfc.com/about/affordable-re-rentals"

/-- The exceptions `send_ntfy_alert` / `send_tfc_income_alert`
(monitor.py lines 329-361 and 425-456) raise out of `run_once`:
`ValueError` when `NTFY_TOPIC_URL` is unset at delivery time, and
`RuntimeError` (or the re-raised transport exception) on a failed POST. -/
inductive NotifyAbort where
  | notConfigured
  | deliveryFailed
deriving Repr, DecidableEq

/-- `send_ntfy_alert` (monitor.py lines 329-361): a `None` summary is
swallowed; otherwise a missing topic or a failed delivery raises.
`send_tfc_income_alert` (lines 425-456) has the same abort structure. -/
def send_ntfy_alert_once (cfg : Option String) (delivered : Bool)
    (diffSummary : Option String) : Option NotifyAbort :=
  match diffSummary with
  | none => none
  | some _ =>
    match cfg with
    | none => some NotifyAbort.notConfigured
    | some _ => if delivered then none else some NotifyAbort.deliveryFailed

/-- In-memory state of `run_once` (monitor.py lines 464-536), plus the
`[INFO] Checking` trace. -/
structure OnceState where
  hashes : List (String × String)
  texts : List (String × String)
  tfcIncome : List (String × List String)
  changedAny : Bool
  checked : List String
deriving Repr, DecidableEq

/-- One iteration of the source loop of `run_once` (monitor.py lines
471-529).  `fetch` is `fetch_page_text` (network plus the content filters,
external up to the embedded pieces proved about separately), `deliver`
tells whether the ntfy POST would return 2xx, `diffSum` is
`summarize_diff` (a `difflib.SequenceMatcher` computation, external), and
`hashFn` is the SHA-256 hex digest.  A `some` abort aborts the whole run:
nothing is saved. -/
def processOnceUrl (cfg : Option String) (fetch : String → Option String)
    (deliver : String → Bool) (diffSum : String → String → Option String)
    (hashFn : String → String) (st0 : OnceState) (url : String) :
    OnceState × Option NotifyAbort :=
  let st := { st0 with checked := st0.checked ++ [url] }
  match fetch url with
  | none => (st, none)
  | some newText =>
    if url = TFC_URL then
      let options := extract_tfc_income_options newText
      let newSet := pySetOf options
      let oldSet := pySetOf (dictGetD st.tfcIncome url [])
      if oldSet = [] then
        let st := { st with tfcIncome := dictSet st.tfcIncome url (sortIds newSet),
                            changedAny := true }
        ({ st with texts := dictSet st.texts url newText,
                   hashes := dictSet st.hashes url (hashFn newText) }, none)
      else if setEqB newSet oldSet then
        ({ st with texts := dictSet st.texts url newText,
                   hashes := dictSet st.hashes url (hashFn newText) }, none)
      else
        match send_ntfy_alert_once cfg (deliver url)
            (summarize_tfc_income_changes oldSet newSet) with
        | some ab => (st, some ab)
        | none =>
          let st := { st with tfcIncome := dictSet st.tfcIncome url (sortIds newSet),
                              changedAny := true }
          ({ st with texts := dictSet st.texts url newText,
                     hashes := dictSet st.hashes url (hashFn newText) }, none)
    else
      match List.lookup url st.texts, List.lookup url st.hashes with
      | some oldText, some oldHash =>
        if hashFn newText = oldHash then (st, none)
        else
          match send_ntfy_alert_once cfg (deliver url) (diffSum oldText newText) with
          | some ab => (st, some ab)
          | none =>
            ({ st with texts := dictSet st.texts url newText,
                       hashes := dictSet st.hashes url (hashFn newText),
                       changedAny := true }, none)
      | _, _ =>
        ({ st with texts := dictSet st.texts url newText,
                   hashes := dictSet st.hashes url (hashFn newText),
                   changedAny := true }, none)

/-- The source loop of `run_once`: stop at the first abort (the exception
propagates out of `run_once`, past the remaining sources and the final
save). -/
def runOnceGo (cfg : Option String) (fetch : String → Option String)
    (deliver : String → Bool) (diffSum : String → String → Option String)
    (hashFn : String → String) :
    List String → OnceState → OnceState × Option NotifyAbort
  | [], st => (st, none)
  | url :: rest, st =>
    match processOnceUrl cfg fetch deliver diffSum hashFn st url with
    | (st', none) => runOnceGo cfg fetch deliver diffSum hashFn rest st'
    | (st', some ab) => (st', some ab)

/-- Result of one `run_once` run: the three state files as left on disk,
whether (and how) the run aborted, and the processing trace. -/
structure OnceRunResult where
  hashFile : List (String × String)
  textFile : List (String × String)
  tfcFile : List (String × List String)
  aborted : Option NotifyAbort
  checked : List String
deriving Repr, DecidableEq

/-- `run_once` (monitor.py lines 464-536) over an explicit source list:
on an abort nothing is saved; otherwise the files are saved only when some
source changed. -/
def runOnceOn (cfg : Option String) (fetch : String → Option String)
    (deliver : String → Bool) (diffSum : String → String → Option String)
    (hashFn : String → String) (urls : List String)
    (hashDisk textDisk : List (String × String))
    (tfcDisk : List (String × List String)) : OnceRunResult :=
  let p := runOnceGo cfg fetch deliver diffSum hashFn urls
    ⟨hashDisk, textDisk, tfcDisk, false, []⟩
  match p.2 with
  | some ab =>
    { hashFile := hashDisk, textFile := textDisk, tfcFile := tfcDisk,
      aborted := some ab, checked := p.1.checked }
  | none =>
    { hashFile := if p.1.changedAny then p.1.hashes else hashDisk
      textFile := if p.1.changedAny then p.1.texts else textDisk
      tfcFile := if p.1.changedAny then p.1.tfcIncome else tfcDisk
      aborted := none
      checked := p.1.checked }

/-- `run_once` on the configured `URLS`. -/
def run_once (cfg : Option String) (fetch : String → Option String)
    (deliver : String → Bool) (diffSum : String → String → Option String)
    (hashFn : String → String) (hashDisk textDisk : List (String × String))
    (tfcDisk : List (String × List String)) : OnceRunResult :=
  runOnceOn cfg fetch deliver diffSum hashFn URLS hashDisk textDisk tfcDisk

/-! ### State-store persistence: `save_json` -/

/-- On-disk contents observable during `save_json` (monitor_dynamic.py
lines 53-55, monitor.py lines 86-91).  Both implementations do
`open(fname, "w")` — which truncates the file in place — followed by
`json.dump`, which writes the serialization sequentially.  A crash after
`k` characters have been written therefore leaves exactly the first `k`
characters of the new serialization; the old contents are destroyed at
open.  There is no temporary file and no rename anywhere in the
repository. -/
def save_json_observable (_oldContents newContents : String) (k : Nat) : String :=
  String.mk (newContents.toList.take k)

/-! ### Invariant predicates used by the theorems -/

/-- Is the head (if any) a non-whitespace character? -/
def headNonWs : List Char → Bool
  | [] => true
  | c :: _ => !isPyWs c

/-- Normal form of `collapseAux`: every whitespace character is a single
space and no two whitespace characters are adjacent. -/
def wellSpaced : List Char → Bool
  | [] => true
  | c :: rest => (!isPyWs c || (c == ' ' && headNonWs rest)) && wellSpaced rest

/-- The invariant of every per-source identifier list written by
`run_dynamic_once`: sorted (in Python's string order), duplicate-free, and
all entries accepted by `is_valid_apartment_id`. -/
def validIdList (l : List Identifier) : Prop :=
  l.Sorted strLe ∧ l.Nodup ∧ ∀ a ∈ l, is_valid_apartment_id a = true

/-! ### Concrete scenario runs used by the counterexamples -/

/-- The Wavecrest source URL (in `DYNAMIC_URLS`; its registered extractor
is `extract_ids_wavecrest`). -/
def wavecrestUrl : String := "https://wavecrestrentals.com/section.php?id=1"

/-- A monitored URL with no registered extractor: it routes to the generic
fallback strategy. -/
def evUrl : String := "https://east-village-homes-owner-llc.rentcafewebsite.com/"

/-- Scenario B of the specification: persisted baseline
`{"Bldg B - Unit 9"}` for the Wavecrest source; the fetched text still
contains "apartment" and "rent" but the extraction yields the empty set;
every other fetch fails. -/
def scenarioBRun : DynRunResult :=
  run_dynamic_once noRegexExtractors
    (fun u => if u = wavecrestUrl then some "apartment rent listings" else none) 0
    [(wavecrestUrl, ["Bldg B - Unit 9"])] [] [] []

/-- First of two consecutive changed runs for the same source. -/
def cooldownRun1 : DynRunResult :=
  run_dynamic_once noRegexExtractors
    (fun u => if u = evUrl then some "apartment rent Unit AB Unit CD" else none) 0
    [(evUrl, ["Unit AB"])] [] [] []

/-- The second changed run, 60 seconds later, on the state left by the
first run. -/
def cooldownRun2 : DynRunResult :=
  run_dynamic_once noRegexExtractors
    (fun u => if u = evUrl then some "apartment rent Unit AB Unit CD Unit EF" else none) 60
    cooldownRun1.aptFile cooldownRun1.textFile cooldownRun1.failureFile
    cooldownRun1.cooldownFile

/-- Three consecutive runs in which every fetch fails. -/
def failRun1 : DynRunResult :=
  run_dynamic_once noRegexExtractors (fun _ => none) 0 [] [] [] []

/-- Second all-fail run on the state of the first. -/
def failRun2 : DynRunResult :=
  run_dynamic_once noRegexExtractors (fun _ => none) 60
    failRun1.aptFile failRun1.textFile failRun1.failureFile failRun1.cooldownFile

/-- Third all-fail run on the state of the second. -/
def failRun3 : DynRunResult :=
  run_dynamic_once noRegexExtractors (fun _ => none) 120
    failRun2.aptFile failRun2.textFile failRun2.failureFile failRun2.cooldownFile

/-- A run over a dirty on-disk apartment file (a duplicated identifier) in
which every fetch fails: no source changes, so nothing is saved back. -/
def dirtyNoChangeRun : DynRunResult :=
  run_dynamic_once noRegexExtractors (fun _ => none) 0
    [("u", ["Unit AB", "Unit AB"])] [] [] []

/-- The first URL of monitor.py's `URLS`. -/
def nycUrl : String :=
  "https://www.nyc.gov/site/hpd/services-and-information/find-affordable-housing-re-rentals.page"

/-- A monitor.py run in which the first source fetches successfully,
differs from its baseline, and the ntfy POST fails. -/
def abortRun : OnceRunResult :=
  run_once (some "https://ntfy.sh/topic")
    (fun u => if u = nycUrl then some "newtext" else some "othertext")
    (fun _ => false) (fun _ _ => some "snippet") (fun s => s)
    [(nycUrl, "oldtext")] [(nycUrl, "oldtext")] []

/-! ## Helper lemmas -/

theorem lexLe_total (a b : List Char) : lexLe a b = true ∨ lexLe b a = true := by
  induction a generalizing b with
  | nil => left; rfl
  | cons x xs ih =>
    cases b with
    | nil => right; rfl
    | cons y ys =>
      by_cases h : x.toNat = y.toNat
      · rcases ih ys with hl | hr
        · left; unfold lexLe; rw [if_pos h]; exact hl
        · right; unfold lexLe; rw [if_pos h.symm]; exact hr
      · rcases Nat.lt_or_ge x.toNat y.toNat with hlt | hge
        · left; unfold lexLe; rw [if_neg h]; exact decide_eq_true hlt
        · have hgt : y.toNat < x.toNat := lt_of_le_of_ne hge (fun e => h e.symm)
          right; unfold lexLe
          rw [if_neg (fun e => h e.symm)]
          exact decide_eq_true hgt

theorem lexLe_trans {a b c : List Char} (hab : lexLe a b = true)
    (hbc : lexLe b c = true) : lexLe a c = true := by
  induction a generalizing b c with
  | nil => rfl
  | cons x xs ih =>
    cases b with
    | nil => simp [lexLe] at hab
    | cons y ys =>
      cases c with
      | nil => simp [lexLe] at hbc
      | cons z zs =>
        unfold lexLe at hab hbc ⊢
        by_cases hxy : x.toNat = y.toNat
        · by_cases hyz : y.toNat = z.toNat
          · rw [if_pos hxy] at hab
            rw [if_pos hyz] at hbc
            rw [if_pos (hxy.trans hyz)]
            exact ih hab hbc
          · rw [if_neg hyz] at hbc
            have hlt : y.toNat < z.toNat := of_decide_eq_true hbc
            rw [if_neg (show ¬ x.toNat = z.toNat by omega)]
            exact decide_eq_true (by omega)
        · rw [if_neg hxy] at hab
          have hlt1 : x.toNat < y.toNat := of_decide_eq_true hab
          by_cases hyz : y.toNat = z.toNat
          · rw [if_neg (show ¬ x.toNat = z.toNat by omega)]
            exact decide_eq_true (by omega)
          · rw [if_neg hyz] at hbc
            have hlt2 : y.toNat < z.toNat := of_decide_eq_true hbc
            rw [if_neg (show ¬ x.toNat = z.toNat by omega)]
            exact decide_eq_true (by omega)

theorem strLe_total (a b : String) : strLe a b ∨ strLe b a := lexLe_total a.toList b.toList

theorem strLe_trans {a b c : String} (hab : strLe a b) (hbc : strLe b c) : strLe a c :=
  lexLe_trans hab hbc

theorem dictGetD_dictSet {α : Type} (m : List (String × α)) (k k' : String) (v d : α) :
    dictGetD (dictSet m k v) k' d = if k' = k then v else dictGetD m k' d := by
  induction m with
  | nil =>
    by_cases h : k' = k
    · have e : (k' == k) = true := beq_iff_eq.mpr h
      simp [dictSet, dictGetD, List.lookup, e, h]
    · have e : (k' == k) = false := beq_eq_false_iff_ne.mpr h
      simp [dictSet, dictGetD, List.lookup, e, h]
  | cons p rest ih =>
    obtain ⟨a, b⟩ := p
    by_cases ha : a = k
    · subst ha
      by_cases h : k' = a
      · subst h
        simp [dictSet, dictGetD, List.lookup]
      · have e : (k' == a) = false := beq_eq_false_iff_ne.mpr h
        simp [dictSet, dictGetD, List.lookup, e, h]
    · have ea : (a == k) = false := beq_eq_false_iff_ne.mpr ha
      by_cases h2 : k' = a
      · subst h2
        have hk : ¬ k' = k := ha
        simp [dictSet, dictGetD, List.lookup, ea, hk]
      · have e2 : (k' == a) = false := beq_eq_false_iff_ne.mpr h2
        simpa [dictSet, dictGetD, List.lookup, ea, e2] using ih

theorem lookup_eq_none_of_not_mem_keys {α : Type} (m : List (String × α)) (k : String)
    (h : k ∉ m.map Prod.fst) : List.lookup k m = none := by
  induction m with
  | nil => rfl
  | cons p rest ih =>
    obtain ⟨a, b⟩ := p
    simp only [List.map_cons, List.mem_cons] at h
    push_neg at h
    have h1 : (k == a) = false := beq_eq_false_iff_ne.mpr h.1
    simp [List.lookup, h1, ih h.2]

theorem lookup_removeKey {α : Type} (m : List (String × α)) (k : String)
    (hnd : (m.map Prod.fst).Nodup) : List.lookup k (removeKey m k) = none := by
  induction m with
  | nil => rfl
  | cons p rest ih =>
    obtain ⟨a, b⟩ := p
    simp only [List.map_cons, List.nodup_cons] at hnd
    by_cases ha : a = k
    · subst ha
      simp only [removeKey, beq_self_eq_true, if_pos]
      exact lookup_eq_none_of_not_mem_keys rest a hnd.1
    · have h1 : (a == k) = false := beq_eq_false_iff_ne.mpr ha
      have h2 : (k == a) = false := beq_eq_false_iff_ne.mpr (fun e => ha e.symm)
      simp [removeKey, h1, List.lookup, h2, ih hnd.2]

theorem headNonWs_collapseAux_true (l : List Char) :
    headNonWs (collapseAux true l) = true := by
  induction l with
  | nil => rfl
  | cons c rest ih =>
    by_cases h : isPyWs c = true
    · simpa [collapseAux, h] using ih
    · simp [collapseAux, h, headNonWs]

theorem collapseAux_wellSpaced (l : List Char) :
    ∀ b, wellSpaced (collapseAux b l) = true := by
  induction l with
  | nil => intro b; rfl
  | cons c rest ih =>
    intro b
    by_cases h : isPyWs c = true
    · cases b with
      | true => simpa [collapseAux, h] using ih true
      | false =>
        simp [collapseAux, h, wellSpaced, headNonWs_collapseAux_true, ih true]
    · simp [collapseAux, h, wellSpaced, ih false]

theorem wellSpaced_tail {c : Char} {rest : List Char}
    (h : wellSpaced (c :: rest) = true) : wellSpaced rest = true := by
  simp only [wellSpaced, Bool.and_eq_true] at h
  exact h.2

theorem collapseAux_fixed (l : List Char) (hw : wellSpaced l = true) :
    collapseAux false l = l ∧ (headNonWs l = true → collapseAux true l = l) := by
  induction l with
  | nil => exact ⟨rfl, fun _ => rfl⟩
  | cons c rest ih =>
    have hrest : wellSpaced rest = true := wellSpaced_tail hw
    simp only [wellSpaced, Bool.and_eq_true, Bool.or_eq_true] at hw
    rcases hw.1 with hnw | hsp
    · -- c is not whitespace
      have hc : isPyWs c = false := by
        cases hcc : isPyWs c
        · rfl
        · rw [hcc] at hnw; simp at hnw
      constructor
      · simp [collapseAux, hc, (ih hrest).1]
      · intro _; simp [collapseAux, hc, (ih hrest).1]
    · -- c = ' ' and the next character is not whitespace
      obtain ⟨hceq, hhead⟩ := hsp
      have hc : c = ' ' := by simpa using hceq
      have hcw : isPyWs c = true := by rw [hc]; rfl
      constructor
      · simp [collapseAux, hc, (show isPyWs ' ' = true by rfl), (ih hrest).2 hhead]
      · intro habs
        simp only [headNonWs, hcw] at habs
        simp at habs

theorem wellSpaced_dropWhile (l : List Char) (hw : wellSpaced l = true) :
    wellSpaced (l.dropWhile isPyWs) = true := by
  induction l with
  | nil => rfl
  | cons c rest ih =>
    by_cases h : isPyWs c = true
    · simpa [List.dropWhile, h] using ih (wellSpaced_tail hw)
    · simpa [List.dropWhile, h] using hw

theorem headNonWs_dropWhile (l : List Char) :
    headNonWs (l.dropWhile isPyWs) = true := by
  induction l with
  | nil => rfl
  | cons c rest ih =>
    by_cases h : isPyWs c = true
    · simpa [List.dropWhile, h] using ih
    · simp [List.dropWhile, h, headNonWs]

theorem headNonWs_append_left (l1 l2 : List Char)
    (h : headNonWs (l1 ++ l2) = true) : headNonWs l1 = true := by
  cases l1 with
  | nil => rfl
  | cons c r => simpa [headNonWs] using h

theorem wellSpaced_append_left (l1 l2 : List Char)
    (h : wellSpaced (l1 ++ l2) = true) : wellSpaced l1 = true := by
  induction l1 with
  | nil => rfl
  | cons c r ih =>
    simp only [List.cons_append, wellSpaced, Bool.and_eq_true, Bool.or_eq_true] at h ⊢
    refine ⟨?_, ih h.2⟩
    rcases h.1 with hnw | hsp
    · exact Or.inl hnw
    · exact Or.inr ⟨hsp.1, headNonWs_append_left r l2 hsp.2⟩

theorem dropWhile_of_headNonWs (l : List Char) (h : headNonWs l = true) :
    l.dropWhile isPyWs = l := by
  cases l with
  | nil => rfl
  | cons c r =>
    simp only [headNonWs] at h
    have hc : isPyWs c = false := by
      cases hcc : isPyWs c
      · rfl
      · rw [hcc] at h; simp at h
    simp [List.dropWhile, hc]

theorem rstrip_decomposition (l : List Char) :
    l = (l.reverse.dropWhile isPyWs).reverse ++ (l.reverse.takeWhile isPyWs).reverse := by
  have h := List.takeWhile_append_dropWhile isPyWs l.reverse
  have h2 : l.reverse.reverse =
      (l.reverse.takeWhile isPyWs ++ l.reverse.dropWhile isPyWs).reverse := by rw [h]
  rw [List.reverse_reverse, List.reverse_append] at h2
  exact h2

theorem pyStrip_wellSpaced (l : List Char) (hw : wellSpaced l = true) :
    wellSpaced (pyStrip l) = true := by
  unfold pyStrip
  have h1 : wellSpaced (l.dropWhile isPyWs) = true := wellSpaced_dropWhile l hw
  have h2 := rstrip_decomposition (l.dropWhile isPyWs)
  rw [h2] at h1
  exact wellSpaced_append_left _ _ h1

theorem pyStrip_headNonWs (l : List Char) :
    headNonWs (pyStrip l) = true := by
  unfold pyStrip
  have h1 : headNonWs (l.dropWhile isPyWs) = true := headNonWs_dropWhile l
  have h2 := rstrip_decomposition (l.dropWhile isPyWs)
  rw [h2] at h1
  exact headNonWs_append_left _ _ h1

theorem pyStrip_rev_headNonWs (l : List Char) :
    headNonWs (pyStrip l).reverse = true := by
  unfold pyStrip
  rw [List.reverse_reverse]
  exact headNonWs_dropWhile _

theorem pyStrip_fixed (l : List Char) (h1 : headNonWs l = true)
    (h2 : headNonWs l.reverse = true) : pyStrip l = l := by
  unfold pyStrip
  rw [dropWhile_of_headNonWs l h1, dropWhile_of_headNonWs l.reverse h2,
    List.reverse_reverse]

theorem normalize_whitespace_idem (s : String) :
    normalize_whitespace (normalize_whitespace s) = normalize_whitespace s := by
  unfold normalize_whitespace
  have htl : (String.mk (pyStrip (collapseAux false s.toList))).toList =
      pyStrip (collapseAux false s.toList) := rfl
  rw [htl]
  have hw : wellSpaced (pyStrip (collapseAux false s.toList)) = true :=
    pyStrip_wellSpaced _ (collapseAux_wellSpaced s.toList false)
  rw [(collapseAux_fixed _ hw).1]
  rw [pyStrip_fixed _ (pyStrip_headNonWs _) (pyStrip_rev_headNonWs _)]

theorem extractStep_sublist (isIgnored isListing : String → Bool)
    (st : ExtractState) (l : String) (acc : List String)
    (h : List.Sublist (st.relevant ++ st.window) acc) :
    List.Sublist ((extractStep isIgnored isListing st l).relevant ++
      (extractStep isIgnored isListing st l).window) (acc ++ [pyStripStr l]) := by
  have hskip : List.Sublist (st.relevant ++ st.window) (acc ++ [pyStripStr l]) :=
    h.trans (List.sublist_append_left acc [pyStripStr l])
  unfold extractStep
  by_cases h1 : pyStripStr l = "" ∨ (pyStripStr l).length < 3
  · simpa [h1] using hskip
  · rw [if_neg h1]
    by_cases h2 : isIgnored (pyStripStr l) = true
    · simpa [h2] using hskip
    · rw [if_neg (by simpa using h2)]
      by_cases h3 : isListing (pyStripStr l) = true
      · rw [if_pos h3]
        dsimp only
        rw [List.append_nil]
        exact h.append (List.Sublist.refl [pyStripStr l])
      · rw [if_neg (by simpa using h3)]
        dsimp only
        have hfull : List.Sublist (st.relevant ++ (st.window ++ [pyStripStr l]))
            (acc ++ [pyStripStr l]) := by
          rw [← List.append_assoc]
          exact h.append (List.Sublist.refl [pyStripStr l])
        by_cases h4 : 2 < (st.window ++ [pyStripStr l]).length
        · rw [if_pos h4]
          exact ((List.tail_sublist (st.window ++ [pyStripStr l])).append_left
            st.relevant).trans hfull
        · rw [if_neg h4]
          exact hfull

theorem extract_fold_sublist (isIgnored isListing : String → Bool) :
    ∀ (lines : List String) (st : ExtractState) (acc : List String),
      List.Sublist (st.relevant ++ st.window) acc →
      List.Sublist
        ((lines.foldl (extractStep isIgnored isListing) st).relevant ++
          (lines.foldl (extractStep isIgnored isListing) st).window)
        (acc ++ lines.map pyStripStr) := by
  intro lines
  induction lines with
  | nil => intro st acc h; simpa using h
  | cons l ls ih =>
    intro st acc h
    have hstep := extractStep_sublist isIgnored isListing st l acc h
    have := ih (extractStep isIgnored isListing st l) (acc ++ [pyStripStr l]) hstep
    simpa [List.append_assoc] using this

theorem extractRelevantLines_sublist (isIgnored isListing : String → Bool)
    (lines : List String) :
    List.Sublist (extractRelevantLines isIgnored isListing lines)
      (lines.map pyStripStr) := by
  have h := extract_fold_sublist isIgnored isListing lines ⟨[], []⟩ [] (by simp)
  simp only [List.nil_append] at h
  exact (List.sublist_append_left _ _).trans h

theorem joinNL_length_ge : ∀ (rest : List String) (a : String),
    a.length ≤ (joinNL (a :: rest)).length := by
  intro rest
  induction rest with
  | nil => intro a; exact Nat.le_refl _
  | cons b bs ih =>
    intro a
    have h1 : a.length ≤ (a ++ "\n" ++ b).length := by
      rw [String.length_append, String.length_append]
      omega
    have h2 := ih (a ++ "\n" ++ b)
    calc a.length ≤ (a ++ "\n" ++ b).length := h1
      _ ≤ (joinNL ((a ++ "\n" ++ b) :: bs)).length := h2
      _ = (joinNL (a :: b :: bs)).length := rfl

theorem joinNL_cons_ne_empty (a : String) (rest : List String) (ha : a ≠ "") :
    joinNL (a :: rest) ≠ "" := by
  intro hEq
  have hlen := joinNL_length_ge rest a
  rw [hEq] at hlen
  have h0 : ("" : String).length = 0 := rfl
  rw [h0] at hlen
  have hdata : a.toList.length = 0 := Nat.le_zero.mp hlen
  have hnil : a.toList = [] := List.length_eq_zero.mp hdata
  apply ha
  cases a
  exact congrArg String.mk (by simpa using hnil)

theorem format_ne_empty (added removed : List Identifier) (h : added ≠ []) :
    format_apartment_changes added removed ≠ "" := by
  unfold format_apartment_changes format_lines
  rw [if_pos h]
  simp only [List.cons_append, List.nil_append, List.append_assoc]
  exact joinNL_cons_ne_empty _ _ (by decide)

theorem processSource_init (oldList newApartments : List Identifier)
    (h : pySetOf oldList = []) :
    processSource oldList newApartments = SourceResult.init (sortIds newApartments) := by
  unfold processSource
  rw [if_pos h]

theorem processSource_zero_extraction (oldList : List Identifier)
    (h0 : pySetOf oldList ≠ []) :
    (25 < (pySetOf oldList).length →
      processSource oldList [] = SourceResult.skipMassive 0 (pySetOf oldList).length) ∧
    ((pySetOf oldList).length ≤ 25 →
      ∃ a, processSource oldList [] = SourceResult.changed [] a) := by
  have hrem : (pySetOf oldList).filter (fun a => !(List.contains [] a)) = pySetOf oldList := by
    simp [List.contains]
  constructor
  · intro hgt
    unfold processSource
    rw [if_neg h0]
    dsimp only
    rw [List.filter_nil, hrem]
    rw [if_neg (by simp [h0])]
    rw [if_pos (Or.inr (by simpa using hgt))]
    simp
  · intro hle
    unfold processSource
    rw [if_neg h0]
    dsimp only
    rw [List.filter_nil, hrem]
    rw [if_neg (by simp [h0])]
    rw [if_neg (by simp; omega)]
    have hsort : sortIds ([] : List Identifier) = [] := rfl
    split_ifs with hc1 hc2
    · exact ⟨_, by rw [hsort]⟩
    · exact ⟨_, by rw [hsort]⟩
    · exact ⟨none, by rw [hsort]⟩

theorem processSource_change_alert (oldList newApartments : List Identifier)
    (h0 : pySetOf oldList ≠ [])
    (h1 : (run_diff (pySetOf oldList) newApartments).1 ≠ [])
    (h2 : (run_diff (pySetOf oldList) newApartments).1.length ≤ 25)
    (h3 : (run_diff (pySetOf oldList) newApartments).2.length ≤ 25) :
    processSource oldList newApartments =
      SourceResult.changed (sortIds newApartments)
        (some ⟨"4", format_apartment_changes
          (run_diff (pySetOf oldList) newApartments).1
          (run_diff (pySetOf oldList) newApartments).2⟩) := by
  unfold run_diff at h1 h2 h3
  dsimp only at h1 h2 h3
  unfold processSource
  rw [if_neg h0]
  dsimp only
  rw [if_neg (by rintro ⟨ha, -⟩; exact h1 ha)]
  rw [if_neg (fun hc => hc.elim (fun hl => Nat.not_lt.mpr h2 hl) (fun hl => Nat.not_lt.mpr h3 hl))]
  rw [if_pos ⟨h1, format_ne_empty _ _ h1⟩]
  rfl

theorem validIdList_nil : validIdList [] :=
  ⟨List.sorted_nil, List.nodup_nil, fun a ha => absurd ha (List.not_mem_nil a)⟩

theorem validIdList_sortIds (l : List Identifier) (hnd : l.Nodup)
    (hv : ∀ a ∈ l, is_valid_apartment_id a = true) : validIdList (sortIds l) := by
  refine ⟨?_, ?_, ?_⟩
  · exact @List.sorted_insertionSort String strLe decStrLe ⟨strLe_total⟩
      ⟨fun a b c => strLe_trans⟩ l
  · exact (List.perm_insertionSort strLe l).nodup_iff.mpr hnd
  · intro a ha
    exact hv a ((List.perm_insertionSort strLe l).mem_iff.mp ha)

theorem validIdList_clean_entry (v : List Identifier) :
    validIdList (sortIds ((pySetOf v).filter (fun a => is_valid_apartment_id a))) := by
  apply validIdList_sortIds
  · exact (List.nodup_dedup v).filter _
  · intro a ha
    exact (List.mem_filter.mp ha).2

theorem validIdList_step_entry (l : List Identifier) :
    validIdList (sortIds (pySetOf (l.filter (fun a => is_valid_apartment_id a)))) := by
  apply validIdList_sortIds
  · exact List.nodup_dedup _
  · intro a ha
    exact (List.mem_filter.mp (List.mem_dedup.mp ha)).2

theorem cleanAptState_invariant (raw : List (String × List Identifier)) (url : String) :
    validIdList (dictGetD (cleanAptState raw) url []) := by
  induction raw with
  | nil => exact validIdList_nil
  | cons p rest ih =>
    obtain ⟨k, v⟩ := p
    by_cases h : url = k
    · subst h
      have e : (url == url) = true := beq_self_eq_true url
      simpa [cleanAptState, dictGetD, List.lookup, e] using validIdList_clean_entry v
    · have e : (url == k) = false := beq_eq_false_iff_ne.mpr h
      simpa [cleanAptState, dictGetD, List.lookup, e] using ih

theorem processSource_baseline_shape (oldList newApartments : List Identifier) :
    (processSource oldList newApartments = SourceResult.nochange ∨
      (∃ x y, processSource oldList newApartments = SourceResult.skipMassive x y)) ∨
    (∃ al, processSource oldList newApartments = SourceResult.init (sortIds newApartments) ∨
      processSource oldList newApartments =
        SourceResult.changed (sortIds newApartments) al) := by
  unfold processSource
  dsimp only
  split_ifs
  · exact Or.inr ⟨none, Or.inl rfl⟩
  · exact Or.inl (Or.inl rfl)
  · exact Or.inl (Or.inr ⟨_, _, rfl⟩)
  · exact Or.inr ⟨_, Or.inr rfl⟩
  · exact Or.inr ⟨_, Or.inr rfl⟩
  · exact Or.inr ⟨none, Or.inr rfl⟩

theorem stepUrl_aptState_invariant (ex : RegexExtractors)
    (render : String → Option String) (now : ℤ) (st : DynLoopState) (url : String)
    (h : ∀ u, validIdList (dictGetD st.aptState u [])) :
    ∀ u, validIdList (dictGetD (stepUrl ex render now st url).aptState u []) := by
  intro u
  unfold stepUrl
  rcases hf : fetch_rendered_text st.cooldowns now render url with ⟨r, cds⟩
  cases r with
  | none =>
    simpa [hf] using h u
  | some text =>
    simp only [hf]
    rcases processSource_baseline_shape (dictGetD st.aptState url [])
        (pySetOf ((extract_apartment_ids ex text url).filter
          (fun a => is_valid_apartment_id a))) with hsame | ⟨al, hupd⟩
    · rcases hsame with hn | ⟨x, y, hs⟩
      · simpa [hn] using h u
      · simpa [hs] using h u
    · have hval : validIdList (sortIds (pySetOf ((extract_apartment_ids ex text url).filter
          (fun a => is_valid_apartment_id a)))) := validIdList_step_entry _
      rcases hupd with hi | hc
      · rw [hi]
        dsimp only
        rw [dictGetD_dictSet]
        by_cases hu : u = url
        · rw [if_pos hu]; exact hval
        · rw [if_neg hu]; exact h u
      · rw [hc]
        dsimp only
        rw [dictGetD_dictSet]
        by_cases hu : u = url
        · rw [if_pos hu]; exact hval
        · rw [if_neg hu]; exact h u

theorem foldl_aptState_invariant (ex : RegexExtractors)
    (render : String → Option String) (now : ℤ) :
    ∀ (urls : List String) (st : DynLoopState),
      (∀ u, validIdList (dictGetD st.aptState u [])) →
      ∀ u, validIdList
        (dictGetD ((urls.foldl (stepUrl ex render now) st)).aptState u []) := by
  intro urls
  induction urls with
  | nil => intro st h; exact h
  | cons url rest ih =>
    intro st h
    exact ih (stepUrl ex render now st url)
      (stepUrl_aptState_invariant ex render now st url h)

theorem stepUrl_checked (ex : RegexExtractors) (render : String → Option String)
    (now : ℤ) (st : DynLoopState) (url : String) :
    (stepUrl ex render now st url).checked = st.checked ++ [url] := by
  unfold stepUrl
  rcases hf : fetch_rendered_text st.cooldowns now render url with ⟨r, cds⟩
  cases r with
  | none => simp [hf]
  | some text =>
    simp only [hf]
    rcases processSource_baseline_shape (dictGetD st.aptState url [])
        (pySetOf ((extract_apartment_ids ex text url).filter
          (fun a => is_valid_apartment_id a))) with hsame | ⟨al, hupd⟩
    · rcases hsame with hn | ⟨x, y, hs⟩
      · simp [hn]
      · simp [hs]
    · rcases hupd with hi | hc
      · simp [hi]
      · simp [hc]

theorem runDynamic_checked (ex : RegexExtractors) (render : String → Option String)
    (now : ℤ) :
    ∀ (urls : List String) (st : DynLoopState),
      ((urls.foldl (stepUrl ex render now) st)).checked = st.checked ++ urls := by
  intro urls
  induction urls with
  | nil => intro st; simp
  | cons url rest ih =>
    intro st
    rw [List.foldl_cons, ih, stepUrl_checked]
    simp

theorem stepUrl_fetch_failure (ex : RegexExtractors) (render : String → Option String)
    (now : ℤ) (st : DynLoopState) (url : String) (cds : List (String × ℤ))
    (h : fetch_rendered_text st.cooldowns now render url = (none, cds)) :
    (stepUrl ex render now st url).alerts = st.alerts ∧
    (stepUrl ex render now st url).failures = track_failure st.failures url ∧
    (stepUrl ex render now st url).aptState = st.aptState := by
  unfold stepUrl
  simp [h]

theorem processOnceUrl_fetch_failure (cfg : Option String)
    (fetch : String → Option String) (deliver : String → Bool)
    (diffSum : String → String → Option String) (hashFn : String → String)
    (st : OnceState) (url : String) (h : fetch url = none) :
    processOnceUrl cfg fetch deliver diffSum hashFn st url =
      ({ st with checked := st.checked ++ [url] }, none) := by
  unfold processOnceUrl
  simp [h]

theorem runOnceGo_fetch_failure_isolated (cfg : Option String)
    (fetch : String → Option String) (deliver : String → Bool)
    (diffSum : String → String → Option String) (hashFn : String → String)
    (st : OnceState) (url : String) (rest : List String) (h : fetch url = none) :
    runOnceGo cfg fetch deliver diffSum hashFn (url :: rest) st =
      runOnceGo cfg fetch deliver diffSum hashFn rest
        { st with checked := st.checked ++ [url] } := by
  conv_lhs => rw [runOnceGo]
  rw [processOnceUrl_fetch_failure cfg fetch deliver diffSum hashFn st url h]

/-! ## Claim theorems -/

set_option maxRecDepth 1000000 in
/-- Claim C1 (counterexample): Scenario B refuted.  With the persisted
baseline `{"Bldg B - Unit 9"}` for the Wavecrest source and a fetched text
that still contains "apartment" and "rent" but extracts zero identifiers,
`run_dynamic_once` does not preserve the baseline: it silently overwrites
it with the empty set, sending no alert and logging no anomaly. -/
theorem zero_extraction_overwrite_cex :
    List.lookup wavecrestUrl scenarioBRun.aptFile = some [] ∧
    scenarioBRun.alerts = [] ∧
    scenarioBRun.changedAny = true ∧
    strContains "apartment rent listings" "apartment" = true ∧
    strContains "apartment rent listings" "rent" = true := by decide

/-- Claim C1 (amended): a zero-identifier extraction against a non-empty
baseline is treated as extractor instability only when the baseline has
more than 25 identifiers (the `[SKIP]` branch, which preserves the
baseline); a baseline of at most 25 identifiers is overwritten with the
empty set.  The decision never consults the fetched text, so
listing-likeness plays no role. -/
theorem zero_extraction_policy (oldList : List Identifier)
    (h0 : pySetOf oldList ≠ []) :
    (25 < (pySetOf oldList).length →
      processSource oldList [] = SourceResult.skipMassive 0 (pySetOf oldList).length) ∧
    ((pySetOf oldList).length ≤ 25 →
      ∃ a, processSource oldList [] = SourceResult.changed [] a) :=
  processSource_zero_extraction oldList h0

/-- Witness for `zero_extraction_policy` at Scenario B's concrete
baseline. -/
theorem zero_extraction_policy_witness :
    pySetOf ["Bldg B - Unit 9"] ≠ [] ∧
    (pySetOf ["Bldg B - Unit 9"]).length ≤ 25 ∧
    ∃ a, processSource ["Bldg B - Unit 9"] [] = SourceResult.changed [] a :=
  ⟨by decide, by decide,
   (zero_extraction_policy ["Bldg B - Unit 9"] (by decide)).2 (by decide)⟩

/-- Claim C2: the Diff Engine computes `added = B - A` and
`removed = A - B` (as sets: membership is equivalent to the set
difference), and `added` and `removed` are always disjoint. -/
theorem diff_engine_correct (A B : List Identifier) :
    (∀ x, x ∈ (run_diff A B).1 ↔ x ∈ B ∧ x ∉ A) ∧
    (∀ x, x ∈ (run_diff A B).2 ↔ x ∈ A ∧ x ∉ B) ∧
    List.Disjoint (run_diff A B).1 (run_diff A B).2 := by
  unfold run_diff
  refine ⟨?_, ?_, ?_⟩
  · intro x; simp [List.mem_filter]
  · intro x; simp [List.mem_filter]
  · intro x hx hy
    simp [List.mem_filter] at hx hy
    exact hx.2 hy.1

set_option maxRecDepth 1000000 in
/-- Claim C3 (counterexample): two content-change events for the same
source in consecutive runs 60 seconds apart are BOTH delivered — the
second is not suppressed, because `run_dynamic_once` has no content-change
cooldown at all (the only cooldown in the program is the fetch-failure
cooldown).  The baseline also updates on each run. -/
theorem consecutive_alerts_both_delivered_cex :
    cooldownRun1.alerts.length = 1 ∧
    cooldownRun2.alerts.length = 1 ∧
    cooldownRun1.alerts.map (fun p => p.1) = [evUrl] ∧
    cooldownRun2.alerts.map (fun p => p.1) = [evUrl] ∧
    List.lookup evUrl cooldownRun2.aptFile =
      some ["Unit AB", "Unit CD", "Unit EF"] := by decide

/-- Claim C3 (amended): whenever a successfully fetched source has a
non-empty `added` diff within the 25-identifier sanity cap, the
content-change notification is requested unconditionally — the decision
depends only on the old and new identifier sets, never on any cooldown
state or timestamp (which are not even inputs of this decision), so two
ChangeEvents in consecutive runs are both delivered while the baseline
updates each time. -/
theorem change_alert_unconditional (oldList newApartments : List Identifier)
    (h0 : pySetOf oldList ≠ [])
    (h1 : (run_diff (pySetOf oldList) newApartments).1 ≠ [])
    (h2 : (run_diff (pySetOf oldList) newApartments).1.length ≤ 25)
    (h3 : (run_diff (pySetOf oldList) newApartments).2.length ≤ 25) :
    processSource oldList newApartments =
      SourceResult.changed (sortIds newApartments)
        (some ⟨"4", format_apartment_changes
          (run_diff (pySetOf oldList) newApartments).1
          (run_diff (pySetOf oldList) newApartments).2⟩) :=
  processSource_change_alert oldList newApartments h0 h1 h2 h3

/-- Witness for `change_alert_unconditional` at Scenario A's concrete
sets. -/
theorem change_alert_unconditional_witness :
    pySetOf ["Bldg A - Unit 1"] ≠ [] ∧
    processSource ["Bldg A - Unit 1"] ["Bldg A - Unit 1", "Bldg A - Unit 2"] =
      SourceResult.changed (sortIds ["Bldg A - Unit 1", "Bldg A - Unit 2"])
        (some ⟨"4", format_apartment_changes
          (run_diff (pySetOf ["Bldg A - Unit 1"])
            ["Bldg A - Unit 1", "Bldg A - Unit 2"]).1
          (run_diff (pySetOf ["Bldg A - Unit 1"])
            ["Bldg A - Unit 1", "Bldg A - Unit 2"]).2⟩) :=
  ⟨by decide,
   change_alert_unconditional ["Bldg A - Unit 1"]
     ["Bldg A - Unit 1", "Bldg A - Unit 2"]
     (by decide) (by decide) (by decide) (by decide)⟩

set_option maxRecDepth 1000000 in
/-- Claim C4 (counterexample): a source that fails to fetch on three
consecutive runs reaches a persisted failure count of 3, and no
notification of any kind fires on the 3rd (or any) failing run — the
program has no failure threshold and no "unreachable" outage alert. -/
theorem failure_threshold_no_outage_alert_cex :
    List.lookup "https://afny.org/re-rentals" failRun3.failureFile = some 3 ∧
    failRun1.alerts = [] ∧
    failRun2.alerts = [] ∧
    failRun3.alerts = [] := by decide

/-- Claim C4 (amended): `track_failure` increments the per-source
consecutive-failure count and persists it, and `reset_failure_count`
removes the entry (count back to absent = 0) with no notification — but no
threshold is ever checked: a failing fetch only increments the count and
never produces an alert, at any count. -/
theorem failure_tracking_behaviour :
    (∀ (failures : List (String × Nat)) url,
      dictGetD (track_failure failures url) url 0 = dictGetD failures url 0 + 1) ∧
    (∀ (failures : List (String × Nat)) url, (failures.map Prod.fst).Nodup →
      List.lookup url (reset_failure_count failures url) = none) ∧
    (∀ ex render now (st : DynLoopState) url cds,
      fetch_rendered_text st.cooldowns now render url = (none, cds) →
      (stepUrl ex render now st url).alerts = st.alerts ∧
      (stepUrl ex render now st url).failures = track_failure st.failures url) := by
  refine ⟨?_, ?_, ?_⟩
  · intro f url
    rw [track_failure, dictGetD_dictSet]
    simp
  · intro f url h
    exact lookup_removeKey f url h
  · intro ex render now st url cds h
    exact ⟨(stepUrl_fetch_failure ex render now st url cds h).1,
           (stepUrl_fetch_failure ex render now st url cds h).2.1⟩

/-- Witness for `failure_tracking_behaviour` at concrete inputs. -/
theorem failure_tracking_behaviour_witness :
    dictGetD (track_failure [] "https://a.example/") "https://a.example/" 0 = 1 ∧
    List.lookup "https://a.example/"
      (reset_failure_count [("https://a.example/", 2)] "https://a.example/") = none ∧
    (stepUrl noRegexExtractors (fun _ => none) 0
      ⟨[], [], [], [], [], false, []⟩ "https://a.example/").alerts = [] := by
  refine ⟨?_, ?_, ?_⟩
  · have h := failure_tracking_behaviour.1 [] "https://a.example/"
    simpa using h
  · exact failure_tracking_behaviour.2.1 [("https://a.example/", 2)]
      "https://a.example/" (by decide)
  · have h := (failure_tracking_behaviour.2.2 noRegexExtractors (fun _ => none) 0
      ⟨[], [], [], [], [], false, []⟩ "https://a.example/"
      (set_cooldown [] "https://a.example/" 0 300) (by decide)).1
    simpa using h

/-- Claim C5 (counterexample): `save_json` is not
write-temp-then-rename.  A crash immediately after the `open(fname, "w")`
truncation, while replacing a one-identifier baseline record with an
empty-baseline record, leaves the file empty — a state that is neither the
fully-old nor the fully-new record. -/
theorem save_json_crash_cex :
    save_json_observable "[\"Bldg B - Unit 9\"]" "[]" 0 ≠ "[\"Bldg B - Unit 9\"]" ∧
    save_json_observable "[\"Bldg B - Unit 9\"]" "[]" 0 ≠ "[]" := by decide

/-- Claim C5 (amended): `save_json` writes the new serialization directly
into the target file (truncate-then-write, no temporary file, no rename).
A completed save leaves exactly the new contents, but for any non-empty
old and new contents there is a crash point at which the observable file
contents are neither the fully-old nor the fully-new record. -/
theorem save_json_direct_write_not_atomic (oldC newC : String)
    (hold : oldC ≠ "") (hnew : newC ≠ "") :
    save_json_observable oldC newC newC.toList.length = newC ∧
    ∃ k, save_json_observable oldC newC k ≠ oldC ∧
      save_json_observable oldC newC k ≠ newC := by
  constructor
  · unfold save_json_observable
    rw [List.take_length]
    rfl
  · refine ⟨0, ?_, ?_⟩
    · unfold save_json_observable
      rw [List.take_zero]
      intro e; exact hold e.symm
    · unfold save_json_observable
      rw [List.take_zero]
      intro e; exact hnew e.symm

/-- Witness for `save_json_direct_write_not_atomic` at concrete
contents. -/
theorem save_json_direct_write_not_atomic_witness :
    save_json_observable "old-contents" "new-contents"
      ("new-contents" : String).toList.length = "new-contents" ∧
    ∃ k, save_json_observable "old-contents" "new-contents" k ≠ "old-contents" ∧
      save_json_observable "old-contents" "new-contents" k ≠ "new-contents" :=
  save_json_direct_write_not_atomic "old-contents" "new-contents"
    (by decide) (by decide)

set_option maxRecDepth 1000000 in
/-- Claim C6 (counterexample): the Wavecrest source's registered extractor
returns the empty set on a listing-like text (it contains "apartment",
"rent" and a unit number), and `extract_apartment_ids` returns that empty
set as-is, even though the generic fallback strategy would have extracted
`{"Unit BC"}` from the same text — the generic fallback is NOT invoked
when a registered strategy returns the empty set. -/
theorem registered_empty_no_generic_fallback_cex :
    extract_apartment_ids noRegexExtractors "apartment rent Unit BC" wavecrestUrl = [] ∧
    extract_ids_generic (preprocessText "apartment rent Unit BC") = ["Unit BC"] ∧
    strContains "apartment rent Unit BC" "apartment" = true ∧
    strContains "apartment rent Unit BC" "rent" = true := by decide

set_option maxHeartbeats 2000000 in
/-- Claim C6 (amended): strategy resolution is by URL substring only.  A
URL with a registered strategy gets that strategy's result unchanged
(whatever the result and whatever the text — there is no empty-result
fallback), and the generic strategy is used exactly for URLs with no
registered strategy. -/
theorem extractor_routing (ex : RegexExtractors) (t : String) :
    extract_apartment_ids ex t wavecrestUrl = extract_ids_wavecrest (preprocessText t) ∧
    extract_apartment_ids ex t evUrl = extract_ids_generic (preprocessText t) :=
  ⟨rfl, rfl⟩

set_option maxRecDepth 1000000 in
/-- Claim C7 (counterexample): in monitor.py's `run_once`, a
notification-delivery failure for the first source raises out of the run:
only the first of the 25 configured sources is ever processed, and nothing
(not even the already-computed updates) is saved. -/
theorem notify_failure_aborts_run_cex :
    abortRun.aborted = some NotifyAbort.deliveryFailed ∧
    abortRun.checked = [nycUrl] ∧
    abortRun.textFile = [(nycUrl, "oldtext")] ∧
    1 < URLS.length := by decide

/-- Claim C7 (amended): a FETCH failure is isolated in both runners — in
monitor.py the source is skipped and the loop continues unchanged, and in
monitor_dynamic.py every configured source is processed in every run (its
notifier swallows errors, so nothing aborts a dynamic run).  The claim's
stronger statement fails only for notification-delivery failures in
monitor.py (see the counterexample). -/
theorem fetch_failure_isolated :
    (∀ cfg fetch deliver diffSum hashFn (st : OnceState) url rest,
      fetch url = none →
      runOnceGo cfg fetch deliver diffSum hashFn (url :: rest) st =
        runOnceGo cfg fetch deliver diffSum hashFn rest
          { st with checked := st.checked ++ [url] }) ∧
    (∀ urls ex render now aptDisk textDisk failDisk coolDisk,
      (runDynamicOnceOn urls ex render now aptDisk textDisk failDisk
        coolDisk).checked = urls) := by
  constructor
  · intro cfg fetch deliver diffSum hashFn st url rest h
    exact runOnceGo_fetch_failure_isolated cfg fetch deliver diffSum hashFn st url rest h
  · intro urls ex render now a t f c
    unfold runDynamicOnceOn
    dsimp only
    rw [runDynamic_checked]
    simp

/-- Witness for `fetch_failure_isolated` at a concrete failing fetch. -/
theorem fetch_failure_isolated_witness :
    runOnceGo (some "https://ntfy.sh/topic") (fun _ => none) (fun _ => true)
      (fun _ _ => none) (fun s => s) ["https://a.example/"]
      ⟨[], [], [], false, []⟩ =
      (⟨[], [], [], false, ["https://a.example/"]⟩, none) := by
  rw [fetch_failure_isolated.1 (some "https://ntfy.sh/topic") (fun _ => none)
    (fun _ => true) (fun _ _ => none) (fun s => s)
    ⟨[], [], [], false, []⟩ "https://a.example/" [] rfl]
  rfl

/-- Claim C8: `normalize_whitespace` is idempotent, and the relevance
filter of the Content Normalizer preserves the relative order of retained
lines — its output is a subsequence of the (stripped) input lines, for
every choice of the ignore/listing predicates. -/
theorem normalize_idempotent_and_order_preserving :
    (∀ s, normalize_whitespace (normalize_whitespace s) = normalize_whitespace s) ∧
    (∀ (isIgnored isListing : String → Bool) (lines : List String),
      List.Sublist (extractRelevantLines isIgnored isListing lines)
        (lines.map pyStripStr)) :=
  ⟨normalize_whitespace_idem, extractRelevantLines_sublist⟩

/-- Claim C9: a stored baseline whose identifier set is empty (an empty
list, or an absent entry — `d.get(url, [])` makes the two
indistinguishable) sends the run down the INIT path: the newly extracted
set is recorded as the baseline and no notification is sent. -/
theorem empty_baseline_init_no_alert :
    (∀ (oldList newApartments : List Identifier), pySetOf oldList = [] →
      processSource oldList newApartments = SourceResult.init (sortIds newApartments) ∧
      alertsOfResult (processSource oldList newApartments) = []) ∧
    (∀ (m : List (String × List Identifier)) url, List.lookup url m = none →
      dictGetD m url ([] : List Identifier) = []) := by
  constructor
  · intro o n h
    have he := processSource_init o n h
    exact ⟨he, by rw [he]; rfl⟩
  · intro m url h
    unfold dictGetD
    rw [h]
    rfl

/-- Witness for `empty_baseline_init_no_alert` at Scenario D's concrete
input. -/
theorem empty_baseline_init_no_alert_witness :
    processSource [] ["Bldg A - Unit 1"] =
      SourceResult.init (sortIds ["Bldg A - Unit 1"]) ∧
    dictGetD [("other", ["x"])] "absent" ([] : List Identifier) = [] :=
  ⟨(empty_baseline_init_no_alert.1 [] ["Bldg A - Unit 1"] rfl).1,
   empty_baseline_init_no_alert.2 [("other", ["x"])] "absent" (by decide)⟩

set_option maxRecDepth 1000000 in
/-- Claim C10 (counterexample): the re-established invariant is only
in-memory.  A run in which no source changes does not save, so a persisted
apartment file that violates the invariant (here: a duplicated identifier)
still violates it after the run completes. -/
theorem unchanged_run_keeps_dirty_state_cex :
    dirtyNoChangeRun.aptFile = [("u", ["Unit AB", "Unit AB"])] ∧
    dirtyNoChangeRun.changedAny = false ∧
    ¬ (["Unit AB", "Unit AB"] : List Identifier).Nodup ∧
    is_valid_apartment_id "Unit AB" = true := by decide

/-- Claim C10 (amended): whenever a run of `run_dynamic_once` actually
saves (some source changed), every per-source identifier list in the
persisted apartment state is sorted, duplicate-free and contains only
identifiers accepted by `is_valid_apartment_id`; and the in-memory state
always satisfies this invariant right after loading, whatever the file on
disk contained. -/
theorem saved_state_invariant (urls : List String) (ex : RegexExtractors)
    (render : String → Option String) (now : ℤ)
    (aptDisk : List (String × List Identifier)) (textDisk : List (String × String))
    (failDisk : List (String × Nat)) (coolDisk : List (String × ℤ))
    (h : (runDynamicOnceOn urls ex render now aptDisk textDisk failDisk
      coolDisk).changedAny = true) :
    (∀ url, validIdList
      (dictGetD (runDynamicOnceOn urls ex render now aptDisk textDisk failDisk
        coolDisk).aptFile url [])) ∧
    (∀ (raw : List (String × List Identifier)) url,
      validIdList (dictGetD (cleanAptState raw) url [])) := by
  constructor
  · intro url
    unfold runDynamicOnceOn at h ⊢
    dsimp only at h ⊢
    rw [if_pos h]
    exact foldl_aptState_invariant ex render now urls _
      (fun u => cleanAptState_invariant aptDisk u) url
  · exact fun raw url => cleanAptState_invariant raw url

/-- Witness for `saved_state_invariant` at a concrete INIT run. -/
theorem saved_state_invariant_witness :
    (runDynamicOnceOn [evUrl] noRegexExtractors
      (fun _ => some "apartment rent Unit AB") 0 [] [] [] []).changedAny = true ∧
    validIdList (dictGetD (runDynamicOnceOn [evUrl] noRegexExtractors
      (fun _ => some "apartment rent Unit AB") 0 [] [] [] []).aptFile evUrl []) :=
  ⟨by decide,
   (saved_state_invariant [evUrl] noRegexExtractors
     (fun _ => some "apartment rent Unit AB") 0 [] [] [] [] (by decide)).1 evUrl⟩
